import Mathlib

/-!
Verification of the gpx-speed-map pipeline (src/plot_speed_map.py).

The Python source is shallowly embedded below.  Pure functions become Lean
functions; the network boundary (Overpass HTTP requests) is passed in as
explicit request outcomes (`Except` values), and the run of `main` becomes a
function from those outcomes to the produced map artifact plus a trace of the
network/save events it performs.  Coordinates are modelled as integers: the
claims under study never do real arithmetic on them, only ordering and
copying, so the float representation is irrelevant here.
-/

/-- A GPS point `(latitude, longitude)`. -/
abbrev Point : Type := Int × Int

/- ### Speed code resolver (`SPEED_CODE_MAPPING`, `parse_speed`) -/

/-- The static regional code table from the source (France-specific). -/
def SPEED_CODE_MAPPING : List (String × Int) :=
  [(("FR:urban"), 50), (("FR:rural"), 80), (("FR:trunk"), 110), (("FR:motorway"), 130)]

/-- Dictionary lookup `SPEED_CODE_MAPPING[val]` (with the `in` test). -/
def speedCode (s : String) : Option Int :=
  (SPEED_CODE_MAPPING.find? (fun kv => kv.1 == s)).map (fun kv => kv.2)

/-- Python `str.split()` whitespace test (ASCII whitespace: space, tab,
linefeed, carriage return, vertical tab, form feed). -/
def isWs (c : Char) : Bool :=
  c = ' ' || c = '\t' || c = '\n' || c = '\r' || c.toNat = 11 || c.toNat = 12

/-- `val.split()[0]`: the first whitespace-delimited token of a string, or
`none` when the string has no token (then Python raises `IndexError`, caught
by `parse_speed`). -/
def firstToken (s : String) : Option String :=
  match s.toList.dropWhile isWs with
  | [] => none
  | cs => some (String.mk (cs.takeWhile (fun c => !(isWs c))))

/-- The digit sequence accepted by Python `int()`: ASCII digits, with single
underscores allowed between digits.  Returns the digits with underscores
removed, or `none` when the shape is invalid. -/
def underscoreDigits : List Char → Option (List Char)
  | [] => none
  | [c] => if c.isDigit then some [c] else none
  | c :: d :: rest =>
    if c.isDigit then
      if d = '_' then (underscoreDigits rest).map (fun ds => c :: ds)
      else (underscoreDigits (d :: rest)).map (fun ds => c :: ds)
    else none

/-- Numeric value of a digit list. -/
def digitsToNat (cs : List Char) : Nat :=
  cs.foldl (fun a c => a * 10 + (c.toNat - 48)) 0

/-- Python `int(token)` on a whitespace-free token: an optional single sign
followed by underscore-grouped ASCII digits; `none` models `ValueError`. -/
def python_int (t : String) : Option Int :=
  match t.toList with
  | '+' :: rest => (underscoreDigits rest).map (fun ds => (digitsToNat ds : Int))
  | '-' :: rest => (underscoreDigits rest).map (fun ds => -((digitsToNat ds : Int)))
  | cs => (underscoreDigits cs).map (fun ds => ((digitsToNat ds) : Int))

/-- `parse_speed(val)` from the source: try the code table, then
`int(val.split()[0])`; every failure path (including `val is None`) falls
through the `except` clause to `None`. -/
def parse_speed (val : Option String) : Option Int :=
  match val with
  | none => none
  | some s =>
    match speedCode s with
    | some v => some v
    | none => (firstToken s).bind python_int

example : parse_speed (some ("90")) = some 90 := by decide
example : parse_speed (some ("90 mph")) = some 90 := by decide
example : parse_speed (some ("FR:motorway")) = some 130 := by decide
example : parse_speed (some ("")) = none := by decide
example : parse_speed none = none := by decide
example : parse_speed (some ("variable")) = none := by decide
example : parse_speed (some ("-30")) = some (-30) := by decide
example : parse_speed (some ("0")) = some 0 := by decide
example : parse_speed (some ("1_0")) = some 10 := by decide
example : parse_speed (some ("1__0")) = none := by decide

/- ### Sampler (`get_sample_points`) -/

/-- `np.linspace(0, n - 1, k, dtype=int)` in exact arithmetic: the `i`-th
sample index is the integer truncation of `i * (n - 1) / (k - 1)`.  (Nat
division by zero is zero, which matches `linspace` returning `[0]` for one
sample and `[]` for zero samples.) -/
def sample_indices (n k : Nat) : List Nat :=
  (List.range k).map (fun i => i * (n - 1) / (k - 1))

/-- `get_sample_points(points, max_points)` from the source. -/
def get_sample_points {α : Type} (points : List α) (max_points : Nat) : List α :=
  if points.length ≤ max_points then points
  else (sample_indices points.length max_points).filterMap (fun i => points[i]?)

example : get_sample_points [(10 : Int), 20, 30, 40, 50] 3 = [10, 30, 50] := by decide
example : get_sample_points [(10 : Int), 20, 30] 7 = [10, 20, 30] := by decide
example : get_sample_points [(10 : Int), 20, 30] 2 = [10, 30] := by decide
example : get_sample_points [(10 : Int), 20] 1 = [10] := by decide

/- ### Speed lookup client (`query_max_speed`) -/

/-- One element of an Overpass JSON answer (`out tags` only yields tags). -/
structure OsmElement where
  tags : List (String × String)
  deriving DecidableEq

/-- An HTTP answer from the Overpass interpreter endpoint. -/
structure OverpassResponse where
  status : Nat
  elements : List OsmElement
  deriving DecidableEq

/-- Python `dict.get` on a tag dictionary (first binding wins). -/
def tagGet (tags : List (String × String)) (k : String) : Option String :=
  (tags.find? (fun kv => kv.1 == k)).map (fun kv => kv.2)

/-- `query_max_speed(lat, lon)` from the source, as a function of the request
outcome: an `Except.error` models a raised `requests` exception (connection
failure, timeout, invalid JSON), which the bare `except` swallows; on a 200
answer the first `maxspeed` tag among the returned elements is extracted;
every other path returns `None`. -/
def query_max_speed (resp : Except Unit OverpassResponse) : Option String :=
  match resp with
  | Except.error _ => none
  | Except.ok r =>
    if r.status = 200 then
      (r.elements.filterMap (fun el => tagGet el.tags ("maxspeed"))).head?
    else none

/-- A network that fails every request. -/
def noNetwork : Point → Except Unit OverpassResponse := fun _ => Except.error ()

/- ### Speed collection loop (`collect_speed_data`) -/

/-- One row of `results`: `{'lat': lat, 'lon': lon, 'maxspeed': max_speed}`. -/
structure SpeedObs where
  lat : Int
  lon : Int
  maxspeed : Option String
  deriving DecidableEq

/-- `collect_speed_data(points, limit_speed)` from the source, with the
per-point request outcomes supplied by `network`.  The `limit_speed` argument
only affects console highlighting, not the returned rows, and the 1.2 s
sleep is timing behaviour outside the embedding. -/
def collect_speed_data (points : List Point)
    (network : Point → Except Unit OverpassResponse) : List SpeedObs :=
  points.map (fun p => ⟨p.1, p.2, query_max_speed (network p)⟩)

/- ### Bounding box and fuel stations -/

/-- `(south, west, north, east)` as returned by `get_bounding_box`. -/
structure BBox where
  south : Int
  west : Int
  north : Int
  east : Int
  deriving DecidableEq

/-- `get_bounding_box(points)` from the source (min/max of each coordinate).
Python `min`/`max` raise on an empty sequence; the pipeline only reaches this
call with at least one point, so the `[]` case below is never exercised. -/
def get_bounding_box : List Point → BBox
  | [] => ⟨0, 0, 0, 0⟩
  | p :: ps =>
    ps.foldl (fun b q => ⟨min b.south q.1, min b.west q.2, max b.north q.1, max b.east q.2⟩)
      ⟨p.1, p.2, p.1, p.2⟩

/-- A node of the OSM database visible to the Overpass service. -/
structure OsmNode where
  lat : Int
  lon : Int
  tags : List (String × String)
  deriving DecidableEq

/-- Bounding-box containment used by the Overpass `(s, w, n, e)` filter. -/
def in_bbox (b : BBox) (n : OsmNode) : Bool :=
  (decide (b.south ≤ n.lat) && decide (n.lat ≤ b.north)) &&
  (decide (b.west ≤ n.lon) && decide (n.lon ≤ b.east))

/-- The node filter of the fuel-station query, with Overpass QL semantics:
`['amenity'='fuel']` is tag equality and `['fuel:octane_98']` (resp. `_95`)
is tag *presence* with any value; the source unions the two clauses. -/
def fuel_query_matches (n : OsmNode) : Bool :=
  (tagGet n.tags ("amenity") == some ("fuel")) &&
  ((tagGet n.tags ("fuel:octane_98")).isSome || (tagGet n.tags ("fuel:octane_95")).isSome)

/-- One fuel station row as assembled by `get_fuel_stations`. -/
structure FuelStation where
  lat : Int
  lon : Int
  sp95 : Bool
  sp98 : Bool
  name : String
  deriving DecidableEq

/-- The per-node row construction in the `get_fuel_stations` loop. -/
def mkStation (n : OsmNode) : FuelStation :=
  ⟨n.lat, n.lon,
    tagGet n.tags ("fuel:octane_95") == some ("yes"),
    tagGet n.tags ("fuel:octane_98") == some ("yes"),
    (tagGet n.tags ("name")).getD ("Station-service")⟩

/-- `get_fuel_stations(bbox)` from the source, as a function of the node set
`world` visible to the Overpass service: the service returns the nodes inside
the bbox matching the query, and the loop builds one station per node. -/
def get_fuel_stations (bbox : BBox) (world : List OsmNode) : List FuelStation :=
  (world.filter (fun n => in_bbox bbox n && fuel_query_matches n)).map mkStation

/-- The selection the specification describes instead: only point features
with one of the two fuel-grade tags set to the affirmative value.  Written
from the spec to be compared with `get_fuel_stations`. -/
def fuel_affirmative_spec (n : OsmNode) : Bool :=
  (tagGet n.tags ("amenity") == some ("fuel")) &&
  ((tagGet n.tags ("fuel:octane_98") == some ("yes")) ||
   (tagGet n.tags ("fuel:octane_95") == some ("yes")))

/-- `get_fuel_stations` as the specification words it (spec-side definition
for comparison only). -/
def get_fuel_stations_spec (bbox : BBox) (world : List OsmNode) : List FuelStation :=
  (world.filter (fun n => in_bbox bbox n && fuel_affirmative_spec n)).map mkStation

/- ### Map renderer (`add_fuel_stations_to_map`, `build_speed_map`) -/

/-- A `folium.Marker` (location, icon colour, popup text, icon glyph). -/
structure Marker where
  lat : Int
  lon : Int
  color : String
  popup : String
  icon : String
  deriving DecidableEq

/-- The colour rule of `add_fuel_stations_to_map`. -/
def fuel_color (st : FuelStation) : String :=
  if st.sp95 && st.sp98 then ("green") else ("orange")

/-- The popup text of a fuel-station marker. -/
def fuel_popup (st : FuelStation) : String :=
  st.name ++ ("<br>") ++
  (if st.sp98 then ("✅ SP98<br>") else ("❌ SP98<br>")) ++
  (if st.sp95 then ("✅ SP95") else ("❌ SP95"))

/-- The marker built for one fuel station. -/
def fuel_marker (st : FuelStation) : Marker :=
  ⟨st.lat, st.lon, fuel_color st, fuel_popup st, ("tint")⟩

/-- Colour of a per-point marker from its resolved speed (`gray` when the
speed is unknown, `red` at or above the threshold, `blue` below). -/
def marker_color (s : Option Int) (limit : Int) : String :=
  match s with
  | none => ("gray")
  | some v => if limit ≤ v then ("red") else ("blue")

/-- Popup label of a per-point marker. -/
def marker_label (s : Option Int) : String :=
  match s with
  | none => ("Unknown")
  | some v => toString v ++ (" km/h")

/-- The marker built for one speed observation in the `Add markers` loop.
(The `except` clause around `parse_speed` in that loop is dead code:
`parse_speed` never raises.) -/
def point_marker (limit : Int) (obs : SpeedObs) : Marker :=
  ⟨obs.lat, obs.lon, marker_color (parse_speed obs.maxspeed) limit,
    ("Maxspeed: ") ++ marker_label (parse_speed obs.maxspeed), ("info-sign")⟩

/-- The three polyline layers of the map. -/
inductive SegClass where
  | fast
  | slow
  | unknown
  deriving DecidableEq

/-- Python truthiness of an optional speed: `filter(None, ...)` keeps a value
exactly when it is neither `None` nor `0`. -/
def truthy_val : Option Int → Option Int
  | none => none
  | some v => if v = 0 then none else some v

/-- `filter(None, [s1, s2])` from the segment loop. -/
def filter_truthy (l : List (Option Int)) : List Int :=
  l.filterMap truthy_val

/-- Python `max(list, default=None)`. -/
def list_max : List Int → Option Int
  | [] => none
  | x :: xs => some (xs.foldl max x)

/-- `seg_speed = max(filter(None, [s1, s2]), default=None)` from the source. -/
def seg_speed (s1 s2 : Option Int) : Option Int :=
  list_max (filter_truthy [s1, s2])

/-- The layer chosen for a segment (the `group` variable of the loop). -/
def classify_segment (s1 s2 : Option Int) (limit : Int) : SegClass :=
  match seg_speed s1 s2 with
  | none => SegClass.unknown
  | some v => if limit ≤ v then SegClass.fast else SegClass.slow

/-- Segment classification as the specification words it: the maximum of the
two resolved speeds, where an unknown endpoint is ignored whenever the other
is known (spec-side definition for comparison only). -/
def seg_speed_spec (s1 s2 : Option Int) : Option Int :=
  match s1, s2 with
  | none, none => none
  | some a, none => some a
  | none, some b => some b
  | some a, some b => some (max a b)

/-- Spec-side layer choice built on `seg_speed_spec` (comparison only). -/
def classify_segment_spec (s1 s2 : Option Int) (limit : Int) : SegClass :=
  match seg_speed_spec s1 s2 with
  | none => SegClass.unknown
  | some v => if limit ≤ v then SegClass.fast else SegClass.slow

/-- Polyline colour per layer. -/
def seg_color : SegClass → String
  | SegClass.fast => ("red")
  | SegClass.slow => ("blue")
  | SegClass.unknown => ("gray")

/-- Polyline popup label. -/
def seg_label (s1 s2 : Option Int) : String :=
  match seg_speed s1 s2 with
  | none => ("Unknown speed")
  | some v => toString v ++ (" km/h")

/-- A `folium.PolyLine` between two consecutive sampled points, tagged with
the layer it is added to. -/
structure Segment where
  p1 : Point
  p2 : Point
  color : String
  label : String
  cls : SegClass
  deriving DecidableEq

/-- The segment built for one consecutive pair in the `Draw lines` loop. -/
def seg_of (limit : Int) (a b : SpeedObs) : Segment :=
  ⟨(a.lat, a.lon), (b.lat, b.lon),
    seg_color (classify_segment (parse_speed a.maxspeed) (parse_speed b.maxspeed) limit),
    seg_label (parse_speed a.maxspeed) (parse_speed b.maxspeed),
    classify_segment (parse_speed a.maxspeed) (parse_speed b.maxspeed) limit⟩

/-- All segments, one per pair of consecutive rows
(`for i in range(len(results) - 1)`). -/
def build_segments (limit : Int) (results : List SpeedObs) : List Segment :=
  (results.zip results.tail).map (fun ab => seg_of limit ab.1 ab.2)

/-- Contents of the `fast_group` feature group. -/
def segments_fast (limit : Int) (results : List SpeedObs) : List Segment :=
  (build_segments limit results).filter (fun s => s.cls == SegClass.fast)

/-- Contents of the `slow_group` feature group. -/
def segments_slow (limit : Int) (results : List SpeedObs) : List Segment :=
  (build_segments limit results).filter (fun s => s.cls == SegClass.slow)

/-- Contents of the `unknown_group` feature group. -/
def segments_unknown (limit : Int) (results : List SpeedObs) : List Segment :=
  (build_segments limit results).filter (fun s => s.cls == SegClass.unknown)

/-- A child attached to the `folium.Map` by an `add_to(speed_map)` call. -/
inductive MapChild where
  | marker (m : Marker)
  | featureGroup (name : String) (polylines : List Segment)
  | layerControl
  | legendHtml (limit : Int)
  deriving DecidableEq

/-- The name of the `fast_group` layer. -/
def fast_group_name (limit : Int) : String :=
  ("Speed ≥ ") ++ toString limit ++ (" km/h")

/-- The name of the `slow_group` layer. -/
def slow_group_name (limit : Int) : String :=
  ("Speed < ") ++ toString limit ++ (" km/h")

/-- The value returned by `build_speed_map`: the children attached to the map
object, plus the `MarkerCluster` local.  The source line
`cluster.add_to(speed_map)` is commented out, so the cluster and the per-point
markers inside it are built but never attached to the map. -/
structure BuildResult where
  map_children : List MapChild
  cluster : List Marker

/-- The markers among a map's children. -/
def map_markers (children : List MapChild) : List Marker :=
  children.filterMap (fun c =>
    match c with
    | MapChild.marker m => some m
    | _ => none)

/-- `build_speed_map(points, results, limit_speed)` from the source, with the
Overpass node set `world` supplied explicitly.  The initial `points[0]`
unpacking raises `IndexError` on an empty list; that failure is modelled at
the pipeline level, and this function is only applied to nonempty `points`. -/
def build_speed_map (points : List Point) (results : List SpeedObs) (limit : Int)
    (world : List OsmNode) : BuildResult :=
  let stations := get_fuel_stations (get_bounding_box points) world
  let fuelChildren := stations.map (fun st => MapChild.marker (fuel_marker st))
  { map_children := fuelChildren ++
      [MapChild.featureGroup (fast_group_name limit) (segments_fast limit results),
       MapChild.featureGroup (slow_group_name limit) (segments_slow limit results),
       MapChild.featureGroup ("Unknown speed") (segments_unknown limit results),
       MapChild.layerControl,
       MapChild.legendHtml limit],
    cluster := results.map (point_marker limit) }

/- ### The run of `main` after the GPX file is loaded -/

/-- Externally observable actions of a run: one Overpass request per sampled
point, the fuel-station batch request, and the final file write. -/
inductive Event where
  | speedQuery (p : Point)
  | fuelQuery (b : BBox)
  | saveFile
  deriving DecidableEq

/-- How a run aborts. -/
inductive RunError where
  | loadError
  | emptyTrackIndexError
  | fuelServiceError
  deriving DecidableEq

/-- The pipeline from the sampled points onward: `collect_speed_data`, then
`build_speed_map` (which unpacks `points[0]` — `IndexError` on an empty
list — and then issues the fuel-station query, whose failure propagates
uncaught), then `speed_map.save(filename)`.  Returns the event trace and the
outcome. -/
def pipeline_after_load (sampled : List Point) (limit : Int)
    (network : Point → Except Unit OverpassResponse)
    (fuel : Except Unit (List OsmNode)) :
    List Event × Except RunError BuildResult :=
  match sampled with
  | [] => ([], Except.error RunError.emptyTrackIndexError)
  | p :: rest =>
    let speedEvents := (p :: rest).map Event.speedQuery
    let results := collect_speed_data (p :: rest) network
    match fuel with
    | Except.error _ =>
      (speedEvents ++ [Event.fuelQuery (get_bounding_box (p :: rest))],
        Except.error RunError.fuelServiceError)
    | Except.ok world =>
      (speedEvents ++ [Event.fuelQuery (get_bounding_box (p :: rest)), Event.saveFile],
        Except.ok (build_speed_map (p :: rest) results limit world))

/-- `main` from `load_gpx_points` onward: sample, then run the pipeline. -/
def run_pipeline (points : List Point) (max_points : Nat) (limit : Int)
    (network : Point → Except Unit OverpassResponse)
    (fuel : Except Unit (List OsmNode)) :
    List Event × Except RunError BuildResult :=
  pipeline_after_load (get_sample_points points max_points) limit network fuel

/-- The whole of `main`: a failing `load_gpx_points` (missing file, invalid
GPX) aborts before anything else; a successful load (which yields `[]` for a
parseable file with zero track points, raising nothing) hands its points to
the pipeline. -/
def main_run (loaded : Except Unit (List Point)) (max_points : Nat) (limit : Int)
    (network : Point → Except Unit OverpassResponse)
    (fuel : Except Unit (List OsmNode)) :
    List Event × Except RunError BuildResult :=
  match loaded with
  | Except.error _ => ([], Except.error RunError.loadError)
  | Except.ok points => run_pipeline points max_points limit network fuel

/- ### Helper lemmas -/

/-- `seg_speed` is `none` exactly when each endpoint is `None` or `0`:
the truthiness filter drops both. -/
theorem seg_speed_none_iff (s1 s2 : Option Int) :
    seg_speed s1 s2 = none ↔ ((s1 = none ∨ s1 = some 0) ∧ (s2 = none ∨ s2 = some 0)) := by
  rcases s1 with _ | a <;> rcases s2 with _ | b
  · simp [seg_speed, filter_truthy, truthy_val, list_max]
  · by_cases hb : b = 0 <;>
      simp [seg_speed, filter_truthy, truthy_val, list_max, hb]
  · by_cases ha : a = 0 <;>
      simp [seg_speed, filter_truthy, truthy_val, list_max, ha]
  · by_cases ha : a = 0 <;> by_cases hb : b = 0 <;>
      simp [seg_speed, filter_truthy, truthy_val, list_max, ha, hb]

/-- A segment lands in the unknown layer exactly when its speed is `none`. -/
theorem classify_unknown_iff (s1 s2 : Option Int) (limit : Int) :
    classify_segment s1 s2 limit = SegClass.unknown ↔ seg_speed s1 s2 = none := by
  cases h : seg_speed s1 s2 with
  | none => simp [classify_segment, h]
  | some v =>
    simp only [classify_segment, h]
    split <;> simp

/- ### Claim C3 -/

/-- Claim C3: the speed resolver is total and applies its rules in order —
exact code-table match first (FR:urban→50, FR:rural→80, FR:trunk→110,
FR:motorway→130), then integer parse of the first whitespace-delimited token
without unit conversion ("90 mph" → 90), and every failure path (parse
failure, null, empty string) yields unknown. -/
theorem parse_speed_resolver_rules :
    parse_speed (some ("FR:urban")) = some 50 ∧
    parse_speed (some ("FR:rural")) = some 80 ∧
    parse_speed (some ("FR:trunk")) = some 110 ∧
    parse_speed (some ("FR:motorway")) = some 130 ∧
    parse_speed (some ("90")) = some 90 ∧
    parse_speed (some ("90 mph")) = some 90 ∧
    parse_speed (some ("")) = none ∧
    parse_speed none = none ∧
    parse_speed (some ("variable")) = none ∧
    (∀ raw : Option String, parse_speed raw = none ∨ ∃ n : Int, parse_speed raw = some n) := by
  refine ⟨by decide, by decide, by decide, by decide, by decide, by decide, by decide, rfl,
    by decide, ?_⟩
  intro raw
  cases h : parse_speed raw with
  | none => exact Or.inl rfl
  | some n => exact Or.inr ⟨n, rfl⟩

/- ### Claim C10 -/

/-- Claim C10 (amended): `parse_speed` does no range validation — any string
whose first token parses as a signed integer resolves to that integer, and
the values flow unchanged into the threshold comparison; in segment
classification, nonzero values (negatives included) flow like any other
value, but a resolved 0 is dropped by the truthiness filter and treated as
unknown. -/
theorem resolver_no_range_validation :
    parse_speed (some ("0")) = some 0 ∧
    parse_speed (some ("-30")) = some (-30) ∧
    parse_speed (some ("+45")) = some 45 ∧
    marker_color (parse_speed (some ("0"))) 110 = ("blue") ∧
    marker_color (parse_speed (some ("-30"))) 110 = ("blue") ∧
    marker_color (parse_speed (some ("200"))) 110 = ("red") ∧
    classify_segment (parse_speed (some ("-30"))) none 110 = SegClass.slow ∧
    classify_segment (parse_speed (some ("0"))) none 110 = SegClass.unknown := by
  decide

/-- Claim C10 counterexample: a resolved 0 does not flow into segment
classification like any other value — the code sends the (0, 0) segment to
the unknown layer where the claim predicts the below-threshold layer, while
the equally small nonzero value 5 flows normally. -/
theorem zero_speed_segment_cex :
    classify_segment (parse_speed (some ("0"))) (parse_speed (some ("0"))) 110 =
      SegClass.unknown ∧
    classify_segment_spec (parse_speed (some ("0"))) (parse_speed (some ("0"))) 110 =
      SegClass.slow ∧
    classify_segment (parse_speed (some ("5"))) (parse_speed (some ("5"))) 110 =
      SegClass.slow := by
  decide

/- ### Claim C1 -/

/-- Claim C1 (amended): a segment's speed is the maximum over its endpoint
resolved speeds that are known and nonzero — `filter(None, ...)` drops `0`
together with `None` — so the segment is unknown exactly when both endpoints
are unknown or zero; a known nonzero endpoint is used when the other is
unknown or zero, two known nonzero endpoints give their maximum, and each
segment goes to exactly one layer: fast when its speed ≥ threshold, slow when
below, unknown otherwise. -/
theorem segment_classification_amended :
    ∀ (s1 s2 : Option Int) (limit : Int),
    (classify_segment s1 s2 limit = SegClass.unknown ↔
      ((s1 = none ∨ s1 = some 0) ∧ (s2 = none ∨ s2 = some 0))) ∧
    (∀ a : Int, a ≠ 0 → s1 = some a → (s2 = none ∨ s2 = some 0) →
      seg_speed s1 s2 = some a) ∧
    (∀ b : Int, b ≠ 0 → s2 = some b → (s1 = none ∨ s1 = some 0) →
      seg_speed s1 s2 = some b) ∧
    (∀ a b : Int, a ≠ 0 → b ≠ 0 → seg_speed (some a) (some b) = some (max a b)) ∧
    (∀ v : Int, seg_speed s1 s2 = some v →
      classify_segment s1 s2 limit = if limit ≤ v then SegClass.fast else SegClass.slow) ∧
    (∀ (results : List SpeedObs) (seg : Segment),
      (seg ∈ segments_fast limit results ↔
        seg ∈ build_segments limit results ∧ seg.cls = SegClass.fast) ∧
      (seg ∈ segments_slow limit results ↔
        seg ∈ build_segments limit results ∧ seg.cls = SegClass.slow) ∧
      (seg ∈ segments_unknown limit results ↔
        seg ∈ build_segments limit results ∧ seg.cls = SegClass.unknown)) := by
  intro s1 s2 limit
  refine ⟨(classify_unknown_iff s1 s2 limit).trans (seg_speed_none_iff s1 s2), ?_, ?_, ?_, ?_, ?_⟩
  · intro a ha hs1 hs2
    subst hs1
    rcases hs2 with h | h <;> subst h <;>
      simp [seg_speed, filter_truthy, truthy_val, list_max, ha]
  · intro b hb hs2 hs1
    subst hs2
    rcases hs1 with h | h <;> subst h <;>
      simp [seg_speed, filter_truthy, truthy_val, list_max, hb]
  · intro a b ha hb
    simp [seg_speed, filter_truthy, truthy_val, list_max, ha, hb]
  · intro v h
    simp [classify_segment, h]
  · intro results seg
    refine ⟨?_, ?_, ?_⟩ <;>
      simp [segments_fast, segments_slow, segments_unknown, List.mem_filter]

/-- Claim C1 witness: the known endpoint 90 is used against an unknown one,
and (120, 90) with threshold 110 classifies fast via max = 120. -/
theorem segment_classification_amended_witness :
    seg_speed (some (90 : Int)) none = some 90 ∧
    classify_segment (some (120 : Int)) (some 90) 110 = SegClass.fast := by
  constructor
  · exact (segment_classification_amended (some 90) none 110).2.1 90 (by decide) rfl
      (Or.inl rfl)
  · have h4 := (segment_classification_amended (some (120 : Int)) (some 90) 110).2.2.2.1
      120 90 (by decide) (by decide)
    have hm : max (120 : Int) 90 = 120 := by decide
    rw [hm] at h4
    have h5 := (segment_classification_amended (some (120 : Int)) (some 90) 110).2.2.2.2.1
      120 h4
    rw [if_pos (by decide : (110 : Int) ≤ 120)] at h5
    exact h5

/-- Claim C1 counterexample: for resolved speeds (0, unknown) the code puts
the segment in the unknown layer, while the claim (known value 0 is used)
predicts the below-threshold layer. -/
theorem segment_zero_speed_cex :
    classify_segment (some (0 : Int)) none 110 = SegClass.unknown ∧
    classify_segment_spec (some (0 : Int)) none 110 = SegClass.slow ∧
    SegClass.unknown ≠ SegClass.slow := by
  decide

/- ### Claim C2 -/

/-- Indexing through `filterMap` when every index is in range. -/
theorem filterMap_index_lookup {α : Type} (points : List α) :
    ∀ l : List Nat, (∀ x ∈ l, x < points.length) →
      (l.filterMap (fun i => points[i]?)).length = l.length ∧
      ∀ j : Nat, (l.filterMap (fun i => points[i]?))[j]? =
        l[j]?.bind (fun i => points[i]?) := by
  intro l
  induction l with
  | nil => exact fun _ => ⟨rfl, fun j => by simp⟩
  | cons x xs ih =>
    intro h
    have hx : x < points.length := h x (List.mem_cons_self x xs)
    obtain ⟨v, hv⟩ : ∃ v, points[x]? = some v :=
      ⟨points[x], List.getElem?_eq_getElem hx⟩
    have hxs := ih (fun y hy => h y (List.mem_cons_of_mem x hy))
    have hcons : (x :: xs).filterMap (fun i => points[i]?) =
        v :: xs.filterMap (fun i => points[i]?) := by
      simp [List.filterMap_cons, hv]
    constructor
    · rw [hcons]
      simp [hxs.1]
    · intro j
      rw [hcons]
      cases j with
      | zero => simp [hv]
      | succ j => simpa using hxs.2 j

/-- Every sample index is at most `n - 1`. -/
theorem sample_index_le (n k : Nat) : ∀ x ∈ sample_indices n k, x ≤ n - 1 := by
  intro x hx
  simp only [sample_indices, List.mem_map, List.mem_range] at hx
  obtain ⟨i, hi, rfl⟩ := hx
  cases k with
  | zero => omega
  | succ m =>
    cases m with
    | zero => simp
    | succ m2 =>
      have hstep : i * (n - 1) ≤ (m2 + 1) * (n - 1) :=
        Nat.mul_le_mul_right _ (by omega)
      calc i * (n - 1) / (m2 + 2 - 1) = i * (n - 1) / (m2 + 1) := by norm_num
        _ ≤ (m2 + 1) * (n - 1) / (m2 + 1) := Nat.div_le_div_right hstep
        _ = n - 1 := Nat.mul_div_cancel_left _ (Nat.succ_pos m2)

/-- Sample indices are non-decreasing. -/
theorem sample_indices_pairwise (n k : Nat) :
    (sample_indices n k).Pairwise (· ≤ ·) := by
  have h : (List.range k).Pairwise (· < ·) := List.pairwise_lt_range k
  simp only [sample_indices]
  exact h.map _ (fun a b hab =>
    Nat.div_le_div_right (Nat.mul_le_mul_right _ (Nat.le_of_lt hab)))

/-- Claim C2 (amended): with `len(points) ≤ max_count` the sampler returns
its input unchanged; otherwise it returns exactly `max_count` points at
non-decreasing evenly spaced integer indices within `[0, len-1]`, including
the first input point whenever `max_count ≥ 1` and the last whenever
`max_count ≥ 2` (for `max_count = 1` only the first point is kept, for
`max_count = 0` the output is empty); the sampler is a pure function of its
inputs. -/
theorem sampler_behavior :
    ∀ (α : Type) (points : List α) (k : Nat),
    (points.length ≤ k → get_sample_points points k = points) ∧
    (k < points.length →
      (get_sample_points points k).length = k ∧
      (1 ≤ k → (get_sample_points points k)[0]? = points[0]?) ∧
      (2 ≤ k → (get_sample_points points k)[k - 1]? = points[points.length - 1]?) ∧
      (sample_indices points.length k).Pairwise (· ≤ ·) ∧
      (∀ x ∈ sample_indices points.length k, x ≤ points.length - 1)) := by
  intro α points k
  constructor
  · intro h
    simp [get_sample_points, h]
  · intro hk
    have hn : 1 ≤ points.length := by omega
    have hnot : ¬ points.length ≤ k := by omega
    have hbound : ∀ x ∈ sample_indices points.length k, x < points.length := by
      intro x hx
      have := sample_index_le points.length k x hx
      omega
    have hfm := filterMap_index_lookup points (sample_indices points.length k) hbound
    have hgsp : get_sample_points points k =
        (sample_indices points.length k).filterMap (fun i => points[i]?) := by
      simp [get_sample_points, hnot]
    refine ⟨?_, ?_, ?_, sample_indices_pairwise _ _, sample_index_le _ _⟩
    · rw [hgsp, hfm.1]
      simp [sample_indices]
    · intro hk1
      rw [hgsp, hfm.2 0]
      have h0 : (sample_indices points.length k)[0]? = some 0 := by
        simp [sample_indices, List.getElem?_map, List.getElem?_range (by omega : 0 < k)]
      rw [h0]
      simp
    · intro hk2
      rw [hgsp, hfm.2 (k - 1)]
      have hlast : (sample_indices points.length k)[k - 1]? =
          some (points.length - 1) := by
        have hr : (List.range k)[k - 1]? = some (k - 1) :=
          List.getElem?_range (by omega : k - 1 < k)
        have hdiv : (k - 1) * (points.length - 1) / (k - 1) = points.length - 1 :=
          Nat.mul_div_cancel_left _ (by omega : 0 < k - 1)
        simp [sample_indices, List.getElem?_map, hr, hdiv]
      rw [hlast]
      simp

/-- Claim C2 witness: sampling five points down to three keeps the length,
the first point and the last point. -/
theorem sampler_behavior_witness :
    (get_sample_points [(10 : Int), 20, 30, 40, 50] 3).length = 3 ∧
    (get_sample_points [(10 : Int), 20, 30, 40, 50] 3)[0]? = some 10 ∧
    (get_sample_points [(10 : Int), 20, 30, 40, 50] 3)[2]? = some 50 := by
  have h := (sampler_behavior Int [(10 : Int), 20, 30, 40, 50] 3).2 (by decide)
  refine ⟨h.1, ?_, ?_⟩
  · have h0 := h.2.1 (by decide)
    rw [h0]
    rfl
  · have hl := h.2.2.1 (by decide)
    simpa using hl

/-- Claim C2 counterexample: with `max_count = 1` and two input points, the
sampler keeps only the first point, so the output does not include the last
input point. -/
theorem sampler_last_point_cex :
    get_sample_points [((0 : Int), (0 : Int)), ((9 : Int), (9 : Int))] 1 =
      [((0 : Int), (0 : Int))] ∧
    ¬ (((9 : Int), (9 : Int)) ∈
        get_sample_points [((0 : Int), (0 : Int)), ((9 : Int), (9 : Int))] 1) := by
  decide

/- ### Claim C8 -/

/-- The head of a `filterMap` is the image of the first element on which the
function succeeds. -/
theorem head_filterMap_first {α β : Type} (f : α → Option β) :
    ∀ (l : List α) (i : Nat) (a : α) (b : β), l[i]? = some a → f a = some b →
      (∀ (j : Nat) (a2 : α), j < i → l[j]? = some a2 → f a2 = none) →
      (l.filterMap f).head? = some b := by
  intro l
  induction l with
  | nil => intro i a b ha; simp at ha
  | cons x xs ih =>
    intro i a b ha hb hj
    cases i with
    | zero =>
      simp at ha
      subst ha
      simp [List.filterMap_cons, hb]
    | succ i =>
      have hx : f x = none := hj 0 x (Nat.succ_pos i) (by simp)
      simp only [List.getElem?_cons_succ] at ha
      rw [List.filterMap_cons, hx]
      exact ih i a b ha hb (fun j a2 hji hja =>
        hj (j + 1) a2 (Nat.succ_lt_succ hji) (by simpa using hja))

/-- Claim C8: the per-point lookup never raises past its boundary — a request
failure, a non-200 status, and a 200 answer with no `maxspeed`-tagged element
all yield `None`, while a 200 answer yields the `maxspeed` value of the first
tagged element. -/
theorem speed_lookup_boundary :
    (∀ e : Unit, query_max_speed (Except.error e) = none) ∧
    (∀ r : OverpassResponse, r.status ≠ 200 → query_max_speed (Except.ok r) = none) ∧
    (∀ r : OverpassResponse, (∀ el ∈ r.elements, tagGet el.tags ("maxspeed") = none) →
      query_max_speed (Except.ok r) = none) ∧
    (∀ (r : OverpassResponse) (i : Nat) (el : OsmElement) (v : String),
      r.status = 200 → r.elements[i]? = some el →
      tagGet el.tags ("maxspeed") = some v →
      (∀ (j : Nat) (el2 : OsmElement), j < i → r.elements[j]? = some el2 →
        tagGet el2.tags ("maxspeed") = none) →
      query_max_speed (Except.ok r) = some v) := by
  refine ⟨fun e => rfl, ?_, ?_, ?_⟩
  · intro r h
    simp [query_max_speed, h]
  · intro r h
    by_cases hs : r.status = 200
    · simp [query_max_speed, hs, List.filterMap_eq_nil_iff.mpr h]
    · simp [query_max_speed, hs]
  · intro r i el v hs hel hv hj
    simp only [query_max_speed, hs, if_pos]
    exact head_filterMap_first _ r.elements i el v hel hv hj

/-- Claim C8 witness: a successful 200 answer whose second element is the
first one tagged `maxspeed` resolves to that tag value; the closed failure
cases are instances of the same theorem. -/
theorem speed_lookup_boundary_witness :
    query_max_speed (Except.ok ⟨200, [⟨[(("highway"), ("primary"))]⟩,
      ⟨[(("maxspeed"), ("90"))]⟩]⟩) = some ("90") ∧
    query_max_speed (Except.error ()) = none ∧
    query_max_speed (Except.ok ⟨429, [⟨[(("maxspeed"), ("90"))]⟩]⟩) = none := by
  refine ⟨?_, speed_lookup_boundary.1 (), ?_⟩
  · refine speed_lookup_boundary.2.2.2 _ 1 ⟨[(("maxspeed"), ("90"))]⟩ ("90")
      rfl rfl rfl ?_
    intro j el2 hj hel
    cases j with
    | zero =>
      simp at hel
      subst hel
      rfl
    | succ jj => exact absurd hj (by omega)
  · exact speed_lookup_boundary.2.1 _ (by decide)

/- ### Claim C9 -/

/-- Claim C9: the collection loop yields exactly one observation per sampled
point, in order, carrying that point's coordinates and the raw lookup result
(or `None`); a failed lookup is recorded as unknown and does not stop the
loop. -/
theorem collect_speed_data_one_per_point :
    ∀ (points : List Point) (network : Point → Except Unit OverpassResponse),
    (collect_speed_data points network).length = points.length ∧
    ∀ (i : Nat) (p : Point), points[i]? = some p →
      (collect_speed_data points network)[i]? =
        some ⟨p.1, p.2, query_max_speed (network p)⟩ := by
  intro points network
  constructor
  · simp [collect_speed_data]
  · intro i p hp
    simp [collect_speed_data, List.getElem?_map, hp]

/-- Claim C9 witness: with a network that fails every request, both points
still get an observation, in order, with unknown speed. -/
theorem collect_speed_data_one_per_point_witness :
    (collect_speed_data [((0 : Int), (0 : Int)), ((1 : Int), (1 : Int))] noNetwork).length
      = 2 ∧
    (collect_speed_data [((0 : Int), (0 : Int)), ((1 : Int), (1 : Int))] noNetwork)[1]?
      = some ⟨1, 1, none⟩ := by
  constructor
  · exact (collect_speed_data_one_per_point
      [((0 : Int), (0 : Int)), ((1 : Int), (1 : Int))] noNetwork).1
  · have h := (collect_speed_data_one_per_point
      [((0 : Int), (0 : Int)), ((1 : Int), (1 : Int))] noNetwork).2 1
      ((1 : Int), (1 : Int)) rfl
    simpa using h

/- ### Claim C4 -/

/-- Claim C4 (amended): a track file that parses to zero points makes the run
abort fatally before any network call — the zero-iteration collection loop
issues no speed lookup and the abort precedes the fuel-station query — but
the abort is the `IndexError` raised when `build_speed_map` unpacks
`points[0]`, not a `LoadError`-class failure. -/
theorem empty_track_aborts :
    ∀ (mp : Nat) (limit : Int) (network : Point → Except Unit OverpassResponse)
      (fuel : Except Unit (List OsmNode)),
    main_run (Except.ok []) mp limit network fuel =
      ([], Except.error RunError.emptyTrackIndexError) := by
  intro mp limit network fuel
  show run_pipeline [] mp limit network fuel = _
  have h : get_sample_points ([] : List Point) mp = [] := by
    simp [get_sample_points]
  show pipeline_after_load (get_sample_points [] mp) limit network fuel = _
  rw [h]
  rfl

/-- Claim C4 counterexample: at concrete arguments the zero-point run
performs no network event and aborts, but its error is the rendering
`IndexError`, not the `LoadError` class the claim names. -/
theorem empty_track_error_class_cex :
    main_run (Except.ok []) 400 110 noNetwork (Except.ok []) =
      ([], Except.error RunError.emptyTrackIndexError) ∧
    RunError.emptyTrackIndexError ≠ RunError.loadError := by
  exact ⟨rfl, by decide⟩

/- ### Claim C7 -/

/-- Claim C7: a fuel-station batch failure propagates and aborts the run
whenever the query is reached, no error path saves the output file, and the
file is saved exactly when the whole pipeline completes. -/
theorem fuel_failure_aborts_run :
    ∀ (points : List Point) (mp : Nat) (limit : Int)
      (network : Point → Except Unit OverpassResponse),
    (∃ err, (run_pipeline points mp limit network (Except.error ())).2 =
      Except.error err) ∧
    (∀ (p : Point) (rest : List Point),
      (pipeline_after_load (p :: rest) limit network (Except.error ())).2 =
        Except.error RunError.fuelServiceError ∧
      Event.saveFile ∉ (pipeline_after_load (p :: rest) limit network (Except.error ())).1) ∧
    (∀ fuel : Except Unit (List OsmNode),
      Event.saveFile ∈ (run_pipeline points mp limit network fuel).1 ↔
      ∃ out, (run_pipeline points mp limit network fuel).2 = Except.ok out) := by
  intro points mp limit network
  refine ⟨?_, ?_, ?_⟩
  · show ∃ err, (pipeline_after_load (get_sample_points points mp) limit network
      (Except.error ())).2 = Except.error err
    cases get_sample_points points mp with
    | nil => exact ⟨RunError.emptyTrackIndexError, rfl⟩
    | cons p rest => exact ⟨RunError.fuelServiceError, rfl⟩
  · intro p rest
    constructor
    · rfl
    · simp [pipeline_after_load]
  · intro fuel
    show Event.saveFile ∈ (pipeline_after_load (get_sample_points points mp) limit network
        fuel).1 ↔ ∃ out, (pipeline_after_load (get_sample_points points mp) limit network
        fuel).2 = Except.ok out
    cases get_sample_points points mp with
    | nil =>
      simp [pipeline_after_load]
    | cons p rest =>
      cases fuel with
      | error e => simp [pipeline_after_load]
      | ok world =>
        constructor
        · intro _
          exact ⟨_, rfl⟩
        · intro _
          simp [pipeline_after_load]

/-- Claim C7 witness: a run whose fuel query succeeds saves the file, and the
same pipeline with a failing fuel query aborts with the service error. -/
theorem fuel_failure_aborts_run_witness :
    (∃ out, (run_pipeline [((0 : Int), (0 : Int))] 400 110 noNetwork
      (Except.ok [])).2 = Except.ok out) ∧
    (pipeline_after_load [((0 : Int), (0 : Int))] 110 noNetwork
      (Except.error ())).2 = Except.error RunError.fuelServiceError := by
  constructor
  · exact ((fuel_failure_aborts_run [((0 : Int), (0 : Int))] 400 110 noNetwork).2.2
      (Except.ok [])).mp (by decide)
  · exact ((fuel_failure_aborts_run [((0 : Int), (0 : Int))] 400 110 noNetwork).2.1
      ((0 : Int), (0 : Int)) []).1

/- ### Claim C5 -/

/-- Only `MapChild.marker` children contribute to `map_markers`; marker
children built from fuel stations are kept in order. -/
theorem map_markers_fuel_only (stations : List FuelStation) (tail : List MapChild)
    (htail : map_markers tail = []) :
    map_markers ((stations.map (fun st => MapChild.marker (fuel_marker st))) ++ tail) =
      stations.map fuel_marker := by
  induction stations with
  | nil => simpa using htail
  | cons s ss ih =>
    simp only [map_markers, List.map_cons, List.cons_append, List.filterMap_cons] at ih ⊢
    rw [ih]

/-- Claim C5 (amended): the renderer builds one marker per observation —
red at or above the threshold, blue below, gray when unknown, popup showing
the resolved speed or Unknown — but it puts them in the `MarkerCluster`,
whose `add_to(speed_map)` line is commented out; the markers attached to the
map are exactly the fuel-station markers, so the rendered map holds no
per-point marker. -/
theorem point_markers_cluster_amended :
    ∀ (points : List Point) (results : List SpeedObs) (limit : Int)
      (world : List OsmNode),
    (build_speed_map points results limit world).cluster =
      results.map (point_marker limit) ∧
    map_markers (build_speed_map points results limit world).map_children =
      (get_fuel_stations (get_bounding_box points) world).map fuel_marker ∧
    (∀ obs : SpeedObs, parse_speed obs.maxspeed = none →
      (point_marker limit obs).color = ("gray") ∧
      (point_marker limit obs).popup = ("Maxspeed: Unknown")) ∧
    (∀ (obs : SpeedObs) (v : Int), parse_speed obs.maxspeed = some v →
      (point_marker limit obs).color = (if limit ≤ v then ("red") else ("blue")) ∧
      (point_marker limit obs).popup = ("Maxspeed: ") ++ (toString v ++ (" km/h"))) := by
  intro points results limit world
  refine ⟨rfl, ?_, ?_, ?_⟩
  · show map_markers ((get_fuel_stations (get_bounding_box points) world).map
        (fun st => MapChild.marker (fuel_marker st)) ++ _) = _
    exact map_markers_fuel_only _ _ rfl
  · intro obs h
    constructor
    · simp [point_marker, marker_color, h]
    · simp only [point_marker, marker_label, h]
      decide
  · intro obs v h
    constructor
    · simp [point_marker, marker_color, h]
    · simp [point_marker, marker_label, h]

/-- Claim C5 witness: the colour rule of the built (but unattached) markers
at threshold 110 for resolved speeds 120, 45 and unknown. -/
theorem point_markers_cluster_amended_witness :
    (point_marker 110 ⟨0, 0, some ("120")⟩).color = ("red") ∧
    (point_marker 110 ⟨0, 0, some ("45")⟩).color = ("blue") ∧
    (point_marker 110 ⟨0, 0, none⟩).color = ("gray") := by
  refine ⟨?_, ?_, ?_⟩
  · have h := ((point_markers_cluster_amended [] [] 110 []).2.2.2
      ⟨0, 0, some ("120")⟩ 120 (by decide)).1
    rw [h]
    decide
  · have h := ((point_markers_cluster_amended [] [] 110 []).2.2.2
      ⟨0, 0, some ("45")⟩ 45 (by decide)).1
    rw [h]
    decide
  · exact ((point_markers_cluster_amended [] [] 110 []).2.2.1 ⟨0, 0, none⟩ rfl).1

/-- Claim C5 counterexample: a map built from one sampled point carries zero
markers among its children — the point marker exists only in the unattached
cluster — refuting one marker per sampled point on the rendered map. -/
theorem rendered_map_no_point_markers_cex :
    (map_markers (build_speed_map [((0 : Int), (0 : Int))]
      [⟨0, 0, none⟩] 110 []).map_children).length = 0 ∧
    ([(⟨0, 0, none⟩ : SpeedObs)]).length = 1 ∧
    ((build_speed_map [((0 : Int), (0 : Int))] [⟨0, 0, none⟩] 110 []).cluster).length
      = 1 := by
  refine ⟨rfl, rfl, rfl⟩

/- ### Claim C6 -/

/-- Claim C6 (amended): the locator returns one station per node in the
bounding box tagged `amenity=fuel` that merely carries one of the two
fuel-grade tags with any value (Overpass key-presence filter, not an
affirmative-value filter); `sp95`/`sp98` are true exactly when the
corresponding tag equals `yes`, an untagged name falls back to the generic
label, and a marker is green iff both grades are affirmative, orange
otherwise. -/
theorem fuel_stations_amended :
    ∀ (bbox : BBox) (world : List OsmNode),
    (∀ n ∈ world, in_bbox bbox n = true → fuel_query_matches n = true →
      mkStation n ∈ get_fuel_stations bbox world) ∧
    (∀ st ∈ get_fuel_stations bbox world, ∃ n, n ∈ world ∧ in_bbox bbox n = true ∧
      fuel_query_matches n = true ∧ st = mkStation n) ∧
    (∀ n : OsmNode,
      ((mkStation n).sp95 = true ↔ tagGet n.tags ("fuel:octane_95") = some ("yes")) ∧
      ((mkStation n).sp98 = true ↔ tagGet n.tags ("fuel:octane_98") = some ("yes")) ∧
      (tagGet n.tags ("name") = none → (mkStation n).name = ("Station-service"))) ∧
    (∀ st : FuelStation,
      (fuel_color st = ("green") ↔ (st.sp95 = true ∧ st.sp98 = true)) ∧
      (fuel_color st = ("orange") ↔ ¬ (st.sp95 = true ∧ st.sp98 = true))) := by
  intro bbox world
  refine ⟨?_, ?_, ?_, ?_⟩
  · intro n hn hin hq
    exact List.mem_map_of_mem _ (List.mem_filter.mpr ⟨hn, by simp [hin, hq]⟩)
  · intro st hst
    obtain ⟨n, hn, rfl⟩ := List.mem_map.mp hst
    have hf := List.mem_filter.mp hn
    have hcond := hf.2
    simp only [Bool.and_eq_true] at hcond
    exact ⟨n, hf.1, hcond.1, hcond.2, rfl⟩
  · intro n
    refine ⟨?_, ?_, ?_⟩
    · simp [mkStation]
    · simp [mkStation]
    · intro h
      simp [mkStation, h]
  · intro st
    rcases st with ⟨lat, lon, sp95, sp98, name⟩
    cases sp95 <;> cases sp98 <;> simp [fuel_color]

/-- A fully tagged fuel node used to witness the locator contract. -/
def sampleFuelNode : OsmNode :=
  ⟨0, 0, [(("amenity"), ("fuel")), (("fuel:octane_95"), ("yes")),
    (("fuel:octane_98"), ("yes")), (("name"), ("Total"))]⟩

/-- Claim C6 witness: the fully tagged node inside the box yields its station
row, and that row's marker is green. -/
theorem fuel_stations_amended_witness :
    mkStation sampleFuelNode ∈ get_fuel_stations ⟨-1, -1, 1, 1⟩ [sampleFuelNode] ∧
    fuel_color (mkStation sampleFuelNode) = ("green") := by
  constructor
  · exact (fuel_stations_amended ⟨-1, -1, 1, 1⟩ [sampleFuelNode]).1 sampleFuelNode
      (by decide) (by decide) (by decide)
  · have h := ((fuel_stations_amended ⟨-1, -1, 1, 1⟩ [sampleFuelNode]).2.2.2
      (mkStation sampleFuelNode)).1
    exact h.mpr (by decide)

/-- Claim C6 counterexample: a node tagged `fuel:octane_95=no` matches the
query by tag presence and is returned as a station with both grades false,
while the claim's affirmative-value reading would return nothing. -/
theorem fuel_station_tag_presence_cex :
    get_fuel_stations ⟨-1, -1, 1, 1⟩
      [⟨0, 0, [(("amenity"), ("fuel")), (("fuel:octane_95"), ("no"))]⟩] =
      [⟨0, 0, false, false, ("Station-service")⟩] ∧
    get_fuel_stations_spec ⟨-1, -1, 1, 1⟩
      [⟨0, 0, [(("amenity"), ("fuel")), (("fuel:octane_95"), ("no"))]⟩] = [] ∧
    fuel_affirmative_spec ⟨0, 0, [(("amenity"), ("fuel")), (("fuel:octane_95"), ("no"))]⟩
      = false := by
  decide
